import Mathlib

/-!
Verification of the named-tool dispatch protocol and orchestration logic of
the `llm-agents-tutorial` repository, against its design specification.

The repository's concrete server modules (`mcp_server_tutorial.py`,
`tools.py`, `resources.py`, `prompts.py`, `client_agents.py`) are not part
of the source snapshot; only their documentation (READMEs), the client-side
notebook (`mcp_architecture_tutorial.ipynb`) and the web UI (`ui/app.js`)
are. Definitions below therefore come from two places:

* transcriptions of concrete artifacts present in the snapshot (the Flask
  tutorial README's documented example responses, `ui/app.js`'s `testTool`);
* models of the missing server components, built from the specification's
  contracts (each such definition's doc comment starts with
  `Modelled from the spec:` and names the missing module).
-/

namespace MCP

/-- A JSON-like value, the payload currency of the protocol:
parameter maps, dispatch results and documented example responses. -/
inductive JValue where
  | str (s : String)
  | num (n : Int)
  | bool (b : Bool)
  | arr (xs : List JValue)
  | obj (fields : List (String × JValue))
  | null

/-- Whether a JSON object carries a top-level field named `k`. -/
def JValue.hasKey : JValue → String → Bool
  | .obj fs, k => fs.any (fun p => p.1 == k)
  | _, _ => false

/-- Top-level field lookup in a JSON object. -/
def JValue.getKey : JValue → String → Option JValue
  | .obj fs, k => (fs.find? (fun p => p.1 == k)).map Prod.snd
  | _, _ => none

/-- The documented example response of the `file_reader` tool, transcribed
verbatim from the Flask MCP tutorial README (`src/unnamed/part_000`,
lines 119-130): the payload is a top-level `content` field. -/
def fileReaderExampleResponse : JValue :=
  .obj [("success", .bool true),
        ("content", .str "This is the content of example.txt."),
        ("metadata", .obj [("tool", .str "file_reader"),
                           ("filename", .str "example.txt"),
                           ("timestamp", .str "2025-07-11T10:30:00Z")])]

/-- The documented example response of the `calculator` tool, transcribed
verbatim from the Flask MCP tutorial README (`src/unnamed/part_000`,
lines 144-155): the payload sits in `result` plus an extra top-level
`expression` field. -/
def calculatorExampleResponse : JValue :=
  .obj [("success", .bool true),
        ("result", .num 14),
        ("expression", .str "2 + 3 * 4"),
        ("metadata", .obj [("tool", .str "calculator"),
                           ("timestamp", .str "2025-07-11T10:30:00Z")])]

/-- The JSON type tags used by parameter schemas. -/
inductive JType where
  | str | num | bool | arr | obj | null
deriving DecidableEq

/-- The type tag of a JSON value. -/
def JValue.typeOf : JValue → JType
  | .str _ => .str
  | .num _ => .num
  | .bool _ => .bool
  | .arr _ => .arr
  | .obj _ => .obj
  | .null => .null

/-- Declared shape of one capability parameter: type, requiredness and an
optional default (spec §3, Capability data model). -/
structure ParamSpec where
  ty : JType
  required : Bool
  default : Option JValue

/-- A parameter map, as received by the dispatcher. -/
abbrev Params := List (String × JValue)

/-- Association-list lookup by string key. -/
def assocLookup {α : Type} (xs : List (String × α)) (k : String) : Option α :=
  (xs.find? (fun p => p.1 == k)).map Prod.snd

/-- Whether a parameter map supplies a field named `k`. -/
def hasField (ps : Params) (k : String) : Bool :=
  ps.any (fun p => p.1 == k)

/-- Modelled from the spec: a Capability (spec §3) — the concrete tool
classes of the missing `tools.py` are not in the snapshot.  `run` is the
capability's execution body, an opaque call to a third-party collaborator
that may fail locally. -/
structure Capability where
  name : String
  description : String
  schema : List (String × ParamSpec)
  run : Params → Except String JValue

/-- Modelled from the spec: lookup in the Capability Registry (spec §4.1)
of the missing `tools.py`. -/
def getCap (reg : List Capability) (name : String) : Option Capability :=
  reg.find? (fun c => c.name == name)

/-- Error taxonomy of the dispatcher boundary (spec §7). -/
inductive ErrKind where
  | UnknownCapability | InvalidParameters | ExecutionError
deriving DecidableEq

/-- The `error` payload of a failed dispatch: `{kind, message}` (spec §3). -/
structure ErrInfo where
  kind : ErrKind
  message : String

/-- Envelope metadata: `{capability_name, timestamp}` (spec §3). -/
structure Metadata where
  capability_name : String
  timestamp : Nat

/-- The Dispatch Result Envelope (spec §3). -/
structure Envelope where
  success : Bool
  result : Option JValue
  error : Option ErrInfo
  metadata : Metadata

/-- First declared field that is required but absent from the supplied
parameters, in schema order. -/
def firstMissingRequired (schema : List (String × ParamSpec)) (ps : Params) :
    Option String :=
  (schema.find? (fun e => e.2.required && !(hasField ps e.1))).map Prod.fst

/-- First supplied field that is not declared in the schema, in supplied
order (strict schema: unknown fields are rejected, spec §4.4 step 2). -/
def firstUnknownField (schema : List (String × ParamSpec)) (ps : Params) :
    Option String :=
  (ps.find? (fun p => !(schema.any (fun e => e.1 == p.1)))).map Prod.fst

/-- First supplied field whose value's type disagrees with its declared
type. -/
def firstTypeMismatch (schema : List (String × ParamSpec)) (ps : Params) :
    Option String :=
  (ps.find? (fun p =>
    match schema.find? (fun e => e.1 == p.1) with
    | some e => !(p.2.typeOf == e.2.ty)
    | none => false)).map Prod.fst

/-- Modelled from the spec: parameter validation of the Dispatcher
(spec §4.4 step 2) of the missing `mcp_server_tutorial.py`/`tools.py` —
missing required fields, then unknown fields, then type mismatches, each
reported as `InvalidParameters` naming the offending field. -/
def validateParams (schema : List (String × ParamSpec)) (ps : Params) :
    Option ErrInfo :=
  match firstMissingRequired schema ps with
  | some p => some ⟨.InvalidParameters, "Missing required parameter: " ++ p⟩
  | none =>
    match firstUnknownField schema ps with
    | some p => some ⟨.InvalidParameters, "Unknown parameter: " ++ p⟩
    | none =>
      match firstTypeMismatch schema ps with
      | some p => some ⟨.InvalidParameters, "Type mismatch for parameter: " ++ p⟩
      | none => none

/-- Modelled from the spec: application of declared defaults for absent
optional fields (spec §4.4 step 3). -/
def applyDefaults (schema : List (String × ParamSpec)) (ps : Params) : Params :=
  ps ++ schema.filterMap (fun e =>
    if hasField ps e.1 then none else e.2.default.map (fun v => (e.1, v)))

/-- Modelled from the spec: the Dispatcher `dispatch(capability_name,
parameters)` (spec §4.4) of the missing `mcp_server_tutorial.py` — lookup,
validation, defaulting, execution, and conversion of every outcome into a
uniform result envelope. -/
def dispatch (reg : List Capability) (name : String) (ps : Params)
    (now : Nat) : Envelope :=
  match getCap reg name with
  | none =>
      { success := false, result := none,
        error := some ⟨.UnknownCapability, "Unknown capability: " ++ name⟩,
        metadata := ⟨name, now⟩ }
  | some cap =>
    match validateParams cap.schema ps with
    | some e =>
        { success := false, result := none, error := some e,
          metadata := ⟨name, now⟩ }
    | none =>
      match cap.run (applyDefaults cap.schema ps) with
      | .error msg =>
          { success := false, result := none,
            error := some ⟨.ExecutionError, msg⟩, metadata := ⟨name, now⟩ }
      | .ok v =>
          { success := true, result := some v, error := none,
            metadata := ⟨name, now⟩ }

/-- A concrete registry used to exercise the dispatcher: the `llm`
capability with its required `prompt` and optional `max_tokens`
parameters, as documented by the notebook and README. -/
def llmCap : Capability :=
  { name := "llm",
    description := "Generate text using the language model",
    schema := [("prompt", ⟨.str, true, none⟩),
               ("max_tokens", ⟨.num, false, some (.num 100)⟩)],
    run := fun ps =>
      match assocLookup ps "prompt" with
      | some (.str p) => .ok (.obj [("text", .str ("Echo: " ++ p))])
      | _ => .error "prompt missing" }

/-- The demo registry for concrete dispatch checks. -/
def demoRegistry : List Capability := [llmCap]

/-- Does `needle` begin `hay` (character lists)? -/
def leadMatch : List Char → List Char → Bool
  | [], _ => true
  | _ :: _, [] => false
  | a :: as, b :: bs => a == b && leadMatch as bs

/-- Does `needle` occur anywhere inside the character list? -/
def hasSubAux (needle : List Char) : List Char → Bool
  | [] => leadMatch needle []
  | b :: bs => leadMatch needle (b :: bs) || hasSubAux needle bs

/-- Case-insensitive substring test: does the keyword occur in the
lowercased text? -/
def strHasSub (hay needle : String) : Bool :=
  hasSubAux needle.toList (hay.toList.map Char.toLower)

/-- Does the lowercased query contain any of the given keywords? -/
def containsAny (q : String) (kws : List String) : Bool :=
  kws.any (fun k => strHasSub q k)

/-- Opinion-indicating keywords of the classification heuristic
(spec §4.6 Classify). -/
def opinionKeywords : List String :=
  ["think", "feel", "opinion", "love", "hate", "sentiment"]

/-- Information-seeking keywords of the classification heuristic
(spec §4.6 Classify). -/
def infoKeywords : List String :=
  ["what", "who", "when", "where", "latest", "news", "search", "find"]

/-- The Orchestration Plan flags derived from query classification
(spec §3). -/
structure Plan where
  needs_fact_extraction : Bool
  needs_sentiment_analysis : Bool
  needs_web_search : Bool

/-- Modelled from the spec: the Classify phase of the Orchestration Agent
(spec §4.6) of the missing `client_agents.py` — a deterministic keyword
classification of the query text, no external call. -/
def classify (q : String) : Plan :=
  { needs_fact_extraction := containsAny q infoKeywords,
    needs_sentiment_analysis := containsAny q opinionKeywords,
    needs_web_search := containsAny q infoKeywords }

/-- Modelled from the spec: the ordered steps of the plan — one named step
per set flag (spec §3, Orchestration Plan). -/
def planSteps (p : Plan) : List String :=
  (if p.needs_web_search then ["web_search"] else []) ++
  (if p.needs_fact_extraction then ["fact_extraction"] else []) ++
  (if p.needs_sentiment_analysis then ["sentiment_analysis"] else [])

/-- The Synthesis Result (spec §3). -/
structure Synthesis where
  comprehensive_response : String
  confidence : ℚ
  sources_used : List String

/-- The fixed response produced when no step contributed any material. -/
def insufficientResponse : String :=
  "Insufficient information to answer the query."

/-- Modelled from the spec: the Synthesize phase (spec §4.6) of the missing
`client_agents.py` — combine the successful steps' material through one
further completion call, set `confidence` to the fraction of planned steps
that succeeded (a monotone choice, spec §9 open question), and record
`sources_used` as exactly the names of the steps that succeeded.  Each
step's outcome is `some` material on success and `none` on a recorded
failure, so a failed step is excluded and never aborts the run. -/
def synthesize (llm : String → String) (steps : List String)
    (outcomes : String → Option String) : Synthesis :=
  { comprehensive_response :=
      if (steps.filter (fun s => (outcomes s).isSome)).isEmpty then
        insufficientResponse
      else
        llm ("Synthesize a unified answer from: " ++
          String.intercalate "; " (steps.filterMap outcomes)),
    confidence :=
      if (steps.filter (fun s => (outcomes s).isSome)).isEmpty then 0
      else ((steps.filter (fun s => (outcomes s).isSome)).length : ℚ) /
             (steps.length : ℚ),
    sources_used := steps.filter (fun s => (outcomes s).isSome) }

/-- The orchestration run's result: the strategy chosen by Classify and the
synthesis, as displayed by the notebook (`result['strategy']`,
`result['synthesis']`). -/
structure OrchestrationResult where
  strategy : Plan
  synthesis : Synthesis

/-- Modelled from the spec: `handle_complex_query` of the Orchestration
Agent (spec §4.6) of the missing `client_agents.py` — Classify, Execute the
planned steps (their outcomes are supplied by the fallible collaborators),
then Synthesize.  A total function: no fault escapes the orchestration
boundary. -/
def handle_complex_query (llm : String → String)
    (outcomes : String → Option String) (q : String) : OrchestrationResult :=
  { strategy := classify q,
    synthesis := synthesize llm (planSteps (classify q)) outcomes }

/-- Normalize a segment path: `..` pops the last kept segment, `.` is
skipped, anything else is appended. -/
def normSegs (segs : List String) : List String :=
  segs.foldl (fun acc s =>
    if s == ".." then acc.dropLast
    else if s == "." then acc
    else acc ++ [s]) []

/-- Does `base` lead `p`, segment by segment?  True exactly when `p` stays
inside the directory `base`. -/
def segsLead : List String → List String → Bool
  | [], _ => true
  | _ :: _, [] => false
  | a :: as, b :: bs => a == b && segsLead as bs

/-- The Resource Registry's configuration: a fixed base directory and a
closed set of registered logical names, each mapped to a relative path
(spec §3, Resource). -/
structure ResourceRegistry where
  baseDir : List String
  entries : List (String × List String)

/-- The Resource Registry's mutable state: the content cache, and the log
of every underlying file read performed (the test-observable read
counter). -/
structure RRState where
  cache : List (String × String)
  readLog : List (List String)

/-- The empty starting state of the Resource Registry. -/
def emptyRRState : RRState := ⟨[], []⟩

/-- Resource resolution failures (spec §7). -/
inductive ResErr where
  | NotFoundError | AccessError
deriving DecidableEq

/-- Modelled from the spec: `resolve(name)` of the Resource Registry
(spec §4.2) of the missing `resources.py` — serve from cache when
possible; fail with `NotFoundError` for a name outside the registered
closed set; fail with `AccessError` when the normalized resolution would
escape the base directory; otherwise read the backing file once (through
the collaborator `fsRead`), log the read, and cache the content. -/
def resolve (reg : ResourceRegistry) (fsRead : List String → String)
    (name : String) (st : RRState) : Except ResErr String × RRState :=
  match assocLookup st.cache name with
  | some c => (.ok c, st)
  | none =>
    match assocLookup reg.entries name with
    | none => (.error .NotFoundError, st)
    | some rel =>
      if segsLead reg.baseDir (normSegs (reg.baseDir ++ rel)) then
        (.ok (fsRead (normSegs (reg.baseDir ++ rel))),
         { cache := (name, fsRead (normSegs (reg.baseDir ++ rel))) :: st.cache,
           readLog := st.readLog ++ [normSegs (reg.baseDir ++ rel)] })
      else
        (.error .AccessError, st)

/-- A concrete resource registry for witnesses: the tutorial's
`resources/` directory with `sample.txt`, plus a hostile entry whose
relative path climbs out of the base directory. -/
def demoResources : ResourceRegistry :=
  { baseDir := ["resources"],
    entries := [("sample.txt", ["sample.txt"]),
                ("escape", ["..", "secret.txt"])] }

/-- One piece of a prompt template: literal text or a named placeholder
(spec §3, Prompt Template). -/
inductive TPart where
  | lit (s : String)
  | hole (v : String)
deriving DecidableEq

/-- A prompt template is a sequence of literals and placeholders. -/
abbrev Template := List TPart

/-- The set of placeholder names a template requires. -/
def placeholders : Template → List String
  | [] => []
  | .lit _ :: rest => placeholders rest
  | .hole v :: rest => v :: placeholders rest

/-- Prompt formatting failures (spec §4.3). -/
inductive FmtErr where
  | NotFoundError
  | MissingVariableError (placeholder : String)
deriving DecidableEq

/-- Modelled from the spec: the all-or-nothing rendering core of the
Prompt Registry (spec §4.3) of the missing `prompts.py` — the first
placeholder absent from the variables aborts the whole format with
`MissingVariableError`, so no partially substituted string is ever
produced. -/
def renderParts (parts : Template) (vars : List (String × String)) :
    Except FmtErr String :=
  match parts with
  | [] => .ok ""
  | .lit s :: rest => (renderParts rest vars).map (fun t => s ++ t)
  | .hole v :: rest =>
    match assocLookup vars v with
    | none => .error (.MissingVariableError v)
    | some x => (renderParts rest vars).map (fun t => x ++ t)

/-- Total rendering: every placeholder replaced by its variable's value
(absent variables rendered empty — used only to state what a successful
format returns). -/
def substAll (parts : Template) (vars : List (String × String)) : String :=
  match parts with
  | [] => ""
  | .lit s :: rest => s ++ substAll rest vars
  | .hole v :: rest => (assocLookup vars v).getD "" ++ substAll rest vars

/-- Modelled from the spec: `format(template_name, variables)` of the
Prompt Registry (spec §4.3) of the missing `prompts.py`. -/
def format (preg : List (String × Template)) (tname : String)
    (vars : List (String × String)) : Except FmtErr String :=
  match assocLookup preg tname with
  | none => .error .NotFoundError
  | some parts => renderParts parts vars

/-- The `analyze_text` template of the README's `/prompt` example. -/
def analyzeTextTemplate : Template :=
  [.lit "Please perform ", .hole "task",
   .lit " on the following text: ", .hole "text"]

/-- A concrete prompt registry for witnesses. -/
def demoPrompts : List (String × Template) :=
  [("analyze_text", analyzeTextTemplate)]

/-- The closed set of sentiment labels (spec §8). -/
def sentimentLabels : List String :=
  ["positive", "negative", "neutral", "mixed"]

/-- The sentiment analysis result: a parsed label and confidence on
success, or an `error` field carrying the parse failure message alongside
the raw completion text (spec §4.5 step 5). -/
structure SentimentResult where
  sentiment : Option String
  confidence : ℚ
  error : Option String
  raw_response : String

/-- The task prompt the sentiment agent sends to the completion backend. -/
def sentimentPrompt (text : String) : String :=
  "Analyze the sentiment of the following text and reply as label|confidence: "
    ++ text

/-- Modelled from the spec: parsing of the completion text into the fixed
expected structure (spec §4.5 step 4) of the missing `client_agents.py` —
a sentiment label from the closed set and a confidence value, here encoded
as `label|percent`; anything else fails to parse. -/
def parseSentiment (out : String) : Option (String × Nat) :=
  match out.splitOn "|" with
  | [lab, conf] =>
    if sentimentLabels.contains lab then
      (conf.toNat?).map (fun n => (lab, min n 100))
    else none
  | _ => none

/-- Modelled from the spec: `analyze_sentiment(text)` of the Sentiment
Analysis agent (spec §4.5) of the missing `client_agents.py` — dispatch
the completion backend on the task prompt, parse the completion, and on a
parse failure return a result object carrying an `error` field with the
failure message alongside the raw text, never raising. -/
def analyze_sentiment (completion : String → String) (text : String) :
    SentimentResult :=
  match parseSentiment (completion (sentimentPrompt text)) with
  | some (lab, n) =>
    { sentiment := some lab, confidence := (n : ℚ) / 100, error := none,
      raw_response := completion (sentimentPrompt text) }
  | none =>
    { sentiment := none, confidence := 0,
      error := some ("Failed to parse sentiment response: " ++
        completion (sentimentPrompt text)),
      raw_response := completion (sentimentPrompt text) }

/-- The observable outcome of the web UI's `testTool` function
(`ui/app.js`, lines 189-249): an alert with an early return, or a POST of
`{tool, parameters}` to the `/mcp` endpoint. -/
inductive TestToolAction where
  | alertSelectTool
  | alertInvalidJson (message : String)
  | postMcp (tool : String) (parameters : JValue)

/-- JavaScript's `String.prototype.trim`: strip leading and trailing
whitespace. -/
def strTrim (s : String) : String :=
  ⟨((s.data.dropWhile Char.isWhitespace).reverse.dropWhile
      Char.isWhitespace).reverse⟩

/-- `testTool` from `ui/app.js` (lines 189-231): read the selected tool
name and the trimmed parameters text; alert and return if no tool is
selected; with non-empty parameters text, alert and return if
`JSON.parse` (the collaborator `parse`) rejects it; otherwise POST the
tool name and parsed parameters (defaulting to `{}`) to `/mcp`. -/
def testTool (parse : String → Except String JValue) (toolName : String)
    (paramsValue : String) : TestToolAction :=
  if toolName == "" then .alertSelectTool
  else if strTrim paramsValue == "" then .postMcp toolName (.obj [])
  else
    match parse (strTrim paramsValue) with
    | .error msg => .alertInvalidJson ("Invalid JSON parameters: " ++ msg)
    | .ok ps => .postMcp toolName ps

/-- Evaluation of `dispatch` when the capability name is unregistered. -/
theorem dispatch_eq_unknown (reg : List Capability) (name : String)
    (ps : Params) (now : Nat) (h : getCap reg name = none) :
    dispatch reg name ps now =
      { success := false, result := none,
        error := some ⟨.UnknownCapability, "Unknown capability: " ++ name⟩,
        metadata := ⟨name, now⟩ } := by
  unfold dispatch
  simp only [h]

/-- Evaluation of `dispatch` when validation rejects the parameters. -/
theorem dispatch_eq_validate_fail (reg : List Capability) (name : String)
    (cap : Capability) (ps : Params) (now : Nat) (e : ErrInfo)
    (hc : getCap reg name = some cap)
    (hv : validateParams cap.schema ps = some e) :
    dispatch reg name ps now =
      { success := false, result := none, error := some e,
        metadata := ⟨name, now⟩ } := by
  unfold dispatch
  simp only [hc, hv]

/-- Evaluation of `dispatch` when the capability body fails locally. -/
theorem dispatch_eq_run_error (reg : List Capability) (name : String)
    (cap : Capability) (ps : Params) (now : Nat) (msg : String)
    (hc : getCap reg name = some cap)
    (hv : validateParams cap.schema ps = none)
    (hr : cap.run (applyDefaults cap.schema ps) = .error msg) :
    dispatch reg name ps now =
      { success := false, result := none,
        error := some ⟨.ExecutionError, msg⟩, metadata := ⟨name, now⟩ } := by
  unfold dispatch
  simp only [hc, hv, hr]

/-- Evaluation of `dispatch` when the capability body succeeds. -/
theorem dispatch_eq_run_ok (reg : List Capability) (name : String)
    (cap : Capability) (ps : Params) (now : Nat) (v : JValue)
    (hc : getCap reg name = some cap)
    (hv : validateParams cap.schema ps = none)
    (hr : cap.run (applyDefaults cap.schema ps) = .ok v) :
    dispatch reg name ps now =
      { success := true, result := some v, error := none,
        metadata := ⟨name, now⟩ } := by
  unfold dispatch
  simp only [hc, hv, hr]

/-- Evaluation of `validateParams` when a required field is missing. -/
theorem validateParams_eq_missing (schema : List (String × ParamSpec))
    (ps : Params) (p : String) (h : firstMissingRequired schema ps = some p) :
    validateParams schema ps =
      some ⟨.InvalidParameters, "Missing required parameter: " ++ p⟩ := by
  unfold validateParams
  simp only [h]

/-- Evaluation of `validateParams` when all required fields are supplied
but an undeclared field is present. -/
theorem validateParams_eq_unknown_field (schema : List (String × ParamSpec))
    (ps : Params) (p : String) (h : firstMissingRequired schema ps = none)
    (hu : firstUnknownField schema ps = some p) :
    validateParams schema ps =
      some ⟨.InvalidParameters, "Unknown parameter: " ++ p⟩ := by
  unfold validateParams
  simp only [h, hu]

/-- The synthesis of an orchestration run is the synthesis of the
classified plan's steps. -/
theorem handle_synthesis_eq (llm : String → String)
    (outcomes : String → Option String) (q : String) :
    (handle_complex_query llm outcomes q).synthesis =
      synthesize llm (planSteps (classify q)) outcomes := rfl

/-- The confidence field of `synthesize`, unfolded. -/
theorem synthesize_confidence (llm : String → String) (steps : List String)
    (outcomes : String → Option String) :
    (synthesize llm steps outcomes).confidence =
      if (steps.filter (fun s => (outcomes s).isSome)).isEmpty then 0
      else ((steps.filter (fun s => (outcomes s).isSome)).length : ℚ) /
             (steps.length : ℚ) := rfl

/-- The response field of `synthesize`, unfolded. -/
theorem synthesize_response (llm : String → String) (steps : List String)
    (outcomes : String → Option String) :
    (synthesize llm steps outcomes).comprehensive_response =
      if (steps.filter (fun s => (outcomes s).isSome)).isEmpty then
        insufficientResponse
      else
        llm ("Synthesize a unified answer from: " ++
          String.intercalate "; " (steps.filterMap outcomes)) := rfl

/-- The sources field of `synthesize` is exactly the successful steps. -/
theorem synthesize_sources (llm : String → String) (steps : List String)
    (outcomes : String → Option String) :
    (synthesize llm steps outcomes).sources_used =
      steps.filter (fun s => (outcomes s).isSome) := rfl

/-- Synthesis confidence is never negative. -/
theorem synthesize_confidence_nonneg (llm : String → String)
    (steps : List String) (outcomes : String → Option String) :
    0 ≤ (synthesize llm steps outcomes).confidence := by
  rw [synthesize_confidence]
  split
  · exact le_refl 0
  · exact div_nonneg (Nat.cast_nonneg _) (Nat.cast_nonneg _)

/-- Synthesis confidence never exceeds 1. -/
theorem synthesize_confidence_le_one (llm : String → String)
    (steps : List String) (outcomes : String → Option String) :
    (synthesize llm steps outcomes).confidence ≤ 1 := by
  rw [synthesize_confidence]
  split
  · exact zero_le_one
  · rename_i hne
    have hfe : steps.filter (fun s => (outcomes s).isSome) ≠ [] := by
      intro hc
      exact hne (by rw [hc]; rfl)
    have h1 : 0 < (steps.filter (fun s => (outcomes s).isSome)).length :=
      List.length_pos.mpr hfe
    have h2 : (steps.filter (fun s => (outcomes s).isSome)).length ≤
        steps.length := List.length_filter_le _ _
    have hpos : 0 < (steps.length : ℚ) := by
      exact_mod_cast lt_of_lt_of_le h1 h2
    rw [div_le_one hpos]
    exact_mod_cast h2

/-- Synthesis confidence is monotone in the number of successful steps of
a fixed plan. -/
theorem synthesize_confidence_mono (llm : String → String)
    (steps : List String) (o1 o2 : String → Option String)
    (h : (steps.filter (fun s => (o1 s).isSome)).length ≤
         (steps.filter (fun s => (o2 s).isSome)).length) :
    (synthesize llm steps o1).confidence ≤
      (synthesize llm steps o2).confidence := by
  rw [synthesize_confidence, synthesize_confidence]
  split
  · rename_i h1e
    split
    · exact le_refl 0
    · exact div_nonneg (Nat.cast_nonneg _) (Nat.cast_nonneg _)
  · rename_i h1ne
    have hfe : steps.filter (fun s => (o1 s).isSome) ≠ [] := by
      intro hc
      exact h1ne (by rw [hc]; rfl)
    have h1 : 0 < (steps.filter (fun s => (o1 s).isSome)).length :=
      List.length_pos.mpr hfe
    split
    · rename_i h2e
      exfalso
      have : steps.filter (fun s => (o2 s).isSome) = [] :=
        List.isEmpty_iff.mp h2e
      rw [this] at h
      exact absurd (lt_of_lt_of_le h1 h) (by simp)
    · have hlen : (steps.filter (fun s => (o1 s).isSome)).length ≤
          steps.length := List.length_filter_le _ _
      have hpos : 0 < (steps.length : ℚ) := by
        exact_mod_cast lt_of_lt_of_le h1 hlen
      exact (div_le_div_iff_of_pos_right hpos).mpr (by exact_mod_cast h)

/-- Association lookup hits a matching head. -/
theorem assocLookup_cons_self {α : Type} (k : String) (v : α)
    (xs : List (String × α)) : assocLookup ((k, v) :: xs) k = some v := by
  simp [assocLookup, List.find?]

/-- Association lookup skips a non-matching head. -/
theorem assocLookup_cons_ne {α : Type} (k w : String) (x : α)
    (xs : List (String × α)) (h : w ≠ k) :
    assocLookup ((w, x) :: xs) k = assocLookup xs k := by
  unfold assocLookup
  rw [List.find?_cons_of_neg]
  simp [h]

/-- Evaluation of `resolve` on a cache hit. -/
theorem resolve_eq_cached (reg : ResourceRegistry)
    (fsRead : List String → String) (name : String) (st : RRState)
    (c : String) (h : assocLookup st.cache name = some c) :
    resolve reg fsRead name st = (.ok c, st) := by
  unfold resolve
  simp only [h]

/-- Evaluation of `resolve` on an unregistered name. -/
theorem resolve_eq_notfound (reg : ResourceRegistry)
    (fsRead : List String → String) (name : String) (st : RRState)
    (hc : assocLookup st.cache name = none)
    (he : assocLookup reg.entries name = none) :
    resolve reg fsRead name st = (.error .NotFoundError, st) := by
  unfold resolve
  simp only [hc, he]

/-- Evaluation of `resolve` on a registered name whose resolution escapes
the base directory. -/
theorem resolve_eq_access (reg : ResourceRegistry)
    (fsRead : List String → String) (name : String) (st : RRState)
    (rel : List String) (hc : assocLookup st.cache name = none)
    (he : assocLookup reg.entries name = some rel)
    (hl : segsLead reg.baseDir (normSegs (reg.baseDir ++ rel)) = false) :
    resolve reg fsRead name st = (.error .AccessError, st) := by
  unfold resolve
  simp only [hc, he, hl, Bool.false_eq_true, if_false]

/-- Evaluation of `resolve` on a registered, in-bounds, uncached name:
read once, log the read, cache the content. -/
theorem resolve_eq_read (reg : ResourceRegistry)
    (fsRead : List String → String) (name : String) (st : RRState)
    (rel : List String) (hc : assocLookup st.cache name = none)
    (he : assocLookup reg.entries name = some rel)
    (hl : segsLead reg.baseDir (normSegs (reg.baseDir ++ rel)) = true) :
    resolve reg fsRead name st =
      (.ok (fsRead (normSegs (reg.baseDir ++ rel))),
       { cache := (name, fsRead (normSegs (reg.baseDir ++ rel))) :: st.cache,
         readLog := st.readLog ++ [normSegs (reg.baseDir ++ rel)] }) := by
  unfold resolve
  simp only [hc, he, hl, if_true]

/-- Evaluation of `format` on a registered template. -/
theorem format_eq_found (preg : List (String × Template)) (tname : String)
    (parts : Template) (vars : List (String × String))
    (h : assocLookup preg tname = some parts) :
    format preg tname vars = renderParts parts vars := by
  unfold format
  simp only [h]

/-- If some placeholder is absent from the variables, rendering fails with
`MissingVariableError` for an absent placeholder — never with a partially
substituted string. -/
theorem renderParts_missing (parts : Template)
    (vars : List (String × String))
    (h : ∃ v ∈ placeholders parts, assocLookup vars v = none) :
    ∃ p, renderParts parts vars = .error (.MissingVariableError p) ∧
      assocLookup vars p = none := by
  induction parts with
  | nil =>
    rcases h with ⟨v, hv, _⟩
    simp [placeholders] at hv
  | cons hd rest ih =>
    cases hd with
    | lit s =>
      rcases ih (by simpa [placeholders] using h) with ⟨p, hp, hnone⟩
      exact ⟨p, by simp [renderParts, hp, Except.map], hnone⟩
    | hole v =>
      cases hv : assocLookup vars v with
      | none => exact ⟨v, by simp [renderParts, hv], hv⟩
      | some x =>
        rcases h with ⟨u, hu, hunone⟩
        simp [placeholders] at hu
        rcases hu with rfl | hu
        · rw [hv] at hunone
          cases hunone
        · rcases ih ⟨u, hu, hunone⟩ with ⟨p, hp, hnone⟩
          exact ⟨p, by simp [renderParts, hv, hp, Except.map], hnone⟩

/-- If every placeholder is supplied, rendering succeeds and substitutes
each placeholder with its variable's value. -/
theorem renderParts_complete (parts : Template)
    (vars : List (String × String))
    (h : ∀ v ∈ placeholders parts, (assocLookup vars v).isSome) :
    renderParts parts vars = .ok (substAll parts vars) := by
  induction parts with
  | nil => rfl
  | cons hd rest ih =>
    cases hd with
    | lit s =>
      rw [renderParts, ih (by simpa [placeholders] using h)]
      rfl
    | hole v =>
      have hv : (assocLookup vars v).isSome := h v (by simp [placeholders])
      rcases Option.isSome_iff_exists.mp hv with ⟨x, hx⟩
      rw [renderParts, hx,
          ih (fun u hu => h u (by simp [placeholders, hu]))]
      simp [substAll, hx, Except.map]

/-- A variable binding whose name no placeholder mentions does not change
the rendering. -/
theorem renderParts_extra (parts : Template)
    (vars : List (String × String)) (w x : String)
    (hw : w ∉ placeholders parts) :
    renderParts parts ((w, x) :: vars) = renderParts parts vars := by
  induction parts with
  | nil => rfl
  | cons hd rest ih =>
    cases hd with
    | lit s =>
      rw [renderParts, renderParts, ih (by simpa [placeholders] using hw)]
    | hole v =>
      have hne : w ≠ v := by
        intro hc
        exact hw (by simp [placeholders, hc])
      rw [renderParts, renderParts, assocLookup_cons_ne v w x vars hne,
          ih (fun hc => hw (by simp [placeholders, hc]))]

/-- What a successful sentiment parse guarantees: the label comes from the
closed set and the percentage is at most 100. -/
theorem parseSentiment_sound (out lab : String) (n : Nat)
    (h : parseSentiment out = some (lab, n)) :
    sentimentLabels.contains lab = true ∧ n ≤ 100 := by
  unfold parseSentiment at h
  split at h
  · rename_i l c hsp
    split at h
    · rename_i hcon
      cases hm : c.toNat? with
      | none => rw [hm] at h; cases h
      | some m =>
        rw [hm] at h
        simp only [Option.map_some'] at h
        cases h
        exact ⟨hcon, min_le_right m 100⟩
    · cases h
  · cases h

/-- Evaluation of `analyze_sentiment` on an unparsable completion. -/
theorem analyze_sentiment_eq_fail (completion : String → String)
    (text : String)
    (hp : parseSentiment (completion (sentimentPrompt text)) = none) :
    analyze_sentiment completion text =
      { sentiment := none, confidence := 0,
        error := some ("Failed to parse sentiment response: " ++
          completion (sentimentPrompt text)),
        raw_response := completion (sentimentPrompt text) } := by
  unfold analyze_sentiment
  simp only [hp]

/-- Evaluation of `analyze_sentiment` on a parsable completion. -/
theorem analyze_sentiment_eq_ok (completion : String → String)
    (text : String) (lab : String) (n : Nat)
    (hp : parseSentiment (completion (sentimentPrompt text)) = some (lab, n)) :
    analyze_sentiment completion text =
      { sentiment := some lab, confidence := (n : ℚ) / 100, error := none,
        raw_response := completion (sentimentPrompt text) } := by
  unfold analyze_sentiment
  simp only [hp]

end MCP

namespace MCP

/-- C1 counterexample: contrary to the claim that the file-read and
calculator capabilities return their payload nested under `result`, the
repository's documented example responses put the file-reader payload in a
top-level `content` field with no `result` field at all (despite
`success = true`), and give the calculator an extra top-level `expression`
field beside `result`; the envelope shape is thus not identical across the
two capabilities. -/
theorem readme_examples_not_nested_under_result :
    fileReaderExampleResponse.getKey "success" = some (.bool true) ∧
    fileReaderExampleResponse.hasKey "result" = false ∧
    fileReaderExampleResponse.hasKey "content" = true ∧
    calculatorExampleResponse.hasKey "result" = true ∧
    calculatorExampleResponse.hasKey "expression" = true :=
  ⟨rfl, rfl, rfl, rfl, rfl⟩

/-- C1 (amended): for every dispatch through the spec-modelled Dispatcher,
the returned envelope has `result` present exactly when `success` is true,
`error` present exactly when it is false, and metadata naming the
dispatched capability — one uniform shape for all capabilities.  (The
documented file-read and calculator example responses, by contrast, place
their payloads at top level; see the counterexample.) -/
theorem dispatch_envelope_exclusive (reg : List Capability) (name : String)
    (ps : Params) (now : Nat) :
    (dispatch reg name ps now).result.isSome = (dispatch reg name ps now).success ∧
    (dispatch reg name ps now).error.isSome = !(dispatch reg name ps now).success ∧
    (dispatch reg name ps now).metadata.capability_name = name := by
  rcases hg : getCap reg name with _ | cap
  · rw [dispatch_eq_unknown reg name ps now hg]
    exact ⟨rfl, rfl, rfl⟩
  · rcases hv : validateParams cap.schema ps with _ | e
    · rcases hr : cap.run (applyDefaults cap.schema ps) with msg | v
      · rw [dispatch_eq_run_error reg name cap ps now msg hg hv hr]
        exact ⟨rfl, rfl, rfl⟩
      · rw [dispatch_eq_run_ok reg name cap ps now v hg hv hr]
        exact ⟨rfl, rfl, rfl⟩
    · rw [dispatch_eq_validate_fail reg name cap ps now e hg hv]
      exact ⟨rfl, rfl, rfl⟩

/-- C2: dispatching any name absent from the Capability Registry returns an
envelope with `success = false` and `error.kind = UnknownCapability`; the
dispatcher is a total function, so no uncaught fault and no silent success
is possible. -/
theorem dispatch_unknown_capability (reg : List Capability) (name : String)
    (ps : Params) (now : Nat) (h : getCap reg name = none) :
    (dispatch reg name ps now).success = false ∧
    ∃ e, (dispatch reg name ps now).error = some e ∧
      e.kind = .UnknownCapability := by
  rw [dispatch_eq_unknown reg name ps now h]
  exact ⟨rfl, _, rfl, rfl⟩

/-- C2 witness: the notebook's `use_tool("nonexistent_tool", ...)` probe
against the demo registry. -/
theorem dispatch_unknown_capability_witness :
    (dispatch demoRegistry "nonexistent_tool" [] 0).success = false ∧
    ∃ e, (dispatch demoRegistry "nonexistent_tool" [] 0).error = some e ∧
      e.kind = .UnknownCapability :=
  dispatch_unknown_capability demoRegistry "nonexistent_tool" [] 0 rfl

/-- C3: for a registered capability, a parameter map that misses a required
field or carries an undeclared field is rejected with
`error.kind = InvalidParameters`; when a required field is missing, the
error message names that specific field. -/
theorem dispatch_invalid_parameters (reg : List Capability) (name : String)
    (cap : Capability) (ps : Params) (now : Nat)
    (hc : getCap reg name = some cap)
    (h : firstMissingRequired cap.schema ps ≠ none ∨
         firstUnknownField cap.schema ps ≠ none) :
    (dispatch reg name ps now).success = false ∧
    (∃ e, (dispatch reg name ps now).error = some e ∧
      e.kind = .InvalidParameters ∧
      ∀ p, firstMissingRequired cap.schema ps = some p →
        e.message = "Missing required parameter: " ++ p) := by
  cases hm : firstMissingRequired cap.schema ps with
  | some p =>
    rw [dispatch_eq_validate_fail reg name cap ps now _ hc
          (validateParams_eq_missing cap.schema ps p hm)]
    refine ⟨rfl, _, rfl, rfl, ?_⟩
    intro q hq
    cases Option.some.inj hq
    rfl
  | none =>
    cases hu : firstUnknownField cap.schema ps with
    | some q =>
      rw [dispatch_eq_validate_fail reg name cap ps now _ hc
            (validateParams_eq_unknown_field cap.schema ps q hm hu)]
      refine ⟨rfl, _, rfl, rfl, ?_⟩
      intro p hp
      exact Option.noConfusion hp
    | none =>
      rw [hm, hu] at h
      rcases h with h | h <;> exact absurd rfl h

/-- C3 witness: the notebook's `use_tool("llm", {"invalid_param": "value"})`
probe — `prompt` is required and absent, so the dispatch fails with
`InvalidParameters` naming `prompt`. -/
theorem dispatch_invalid_parameters_witness :
    (dispatch demoRegistry "llm" [("invalid_param", .str "value")] 0).success = false ∧
    (∃ e, (dispatch demoRegistry "llm" [("invalid_param", .str "value")] 0).error = some e ∧
      e.kind = .InvalidParameters ∧
      ∀ p, firstMissingRequired llmCap.schema [("invalid_param", .str "value")] = some p →
        e.message = "Missing required parameter: " ++ p) :=
  dispatch_invalid_parameters demoRegistry "llm" llmCap
    [("invalid_param", .str "value")] 0 rfl (Or.inl (by decide))

/-- C4: when every planned step of a query fails (in particular when the
classification sets no flags and the plan has zero steps), Synthesize still
completes, returning the fixed insufficient-information response with
confidence 0 and no sources; `handle_complex_query` is a total function,
so no fault reaches the caller. -/
theorem orchestration_all_steps_failed (llm : String → String)
    (outcomes : String → Option String) (q : String)
    (h : ∀ s ∈ planSteps (classify q), outcomes s = none) :
    (handle_complex_query llm outcomes q).synthesis.comprehensive_response =
      insufficientResponse ∧
    (handle_complex_query llm outcomes q).synthesis.confidence = 0 ∧
    (handle_complex_query llm outcomes q).synthesis.sources_used = [] := by
  have hfilter : (planSteps (classify q)).filter
      (fun s => (outcomes s).isSome) = [] :=
    List.filter_eq_nil_iff.mpr (fun s hs => by simp [h s hs])
  rw [handle_synthesis_eq]
  rw [synthesize_response, synthesize_confidence, synthesize_sources, hfilter]
  exact ⟨rfl, rfl, rfl⟩

/-- C4 witness: the query `"zzz"` matches no classification keyword, so the
plan has zero steps; with every collaborator failing, synthesis still
returns the insufficient-information response with confidence 0. -/
theorem orchestration_all_steps_failed_witness :
    planSteps (classify "zzz") = [] ∧
    ((handle_complex_query (fun _ => "") (fun _ => none)
        "zzz").synthesis.comprehensive_response = insufficientResponse ∧
     (handle_complex_query (fun _ => "") (fun _ => none)
        "zzz").synthesis.confidence = 0 ∧
     (handle_complex_query (fun _ => "") (fun _ => none)
        "zzz").synthesis.sources_used = []) :=
  ⟨by decide,
   orchestration_all_steps_failed (fun _ => "") (fun _ => none) "zzz"
     (fun _ _ => rfl)⟩

/-- C5: for every orchestration run the synthesis confidence lies in
[0,1]; for a fixed query (hence a fixed plan) a run in which at least as
many of the plan's steps succeed has at least as much confidence; and
`sources_used` is exactly the list of planned steps that succeeded. -/
theorem synthesis_confidence_bounds_mono (llm : String → String)
    (q : String) (outcomes o1 o2 : String → Option String)
    (hmono : ((planSteps (classify q)).filter
        (fun s => (o1 s).isSome)).length ≤
      ((planSteps (classify q)).filter (fun s => (o2 s).isSome)).length) :
    0 ≤ (handle_complex_query llm outcomes q).synthesis.confidence ∧
    (handle_complex_query llm outcomes q).synthesis.confidence ≤ 1 ∧
    (handle_complex_query llm outcomes q).synthesis.sources_used =
      (planSteps (classify q)).filter (fun s => (outcomes s).isSome) ∧
    (handle_complex_query llm o1 q).synthesis.confidence ≤
      (handle_complex_query llm o2 q).synthesis.confidence := by
  rw [handle_synthesis_eq, handle_synthesis_eq, handle_synthesis_eq]
  exact ⟨synthesize_confidence_nonneg llm _ outcomes,
         synthesize_confidence_le_one llm _ outcomes,
         synthesize_sources llm _ outcomes,
         synthesize_confidence_mono llm _ o1 o2 hmono⟩

/-- C5 witness: a three-step plan (`"What do people think of Tesla"` sets
all three flags) with no step succeeding versus every step succeeding. -/
theorem synthesis_confidence_bounds_mono_witness :
    (((planSteps (classify "What do people think of Tesla")).filter
        (fun s => ((fun _ : String => (none : Option String)) s).isSome)).length ≤
      ((planSteps (classify "What do people think of Tesla")).filter
        (fun s => ((fun _ : String =>
          (some "material" : Option String)) s).isSome)).length) ∧
    (0 ≤ (handle_complex_query (fun _ => "ok") (fun _ => some "material")
        "What do people think of Tesla").synthesis.confidence ∧
     (handle_complex_query (fun _ => "ok") (fun _ => some "material")
        "What do people think of Tesla").synthesis.confidence ≤ 1 ∧
     (handle_complex_query (fun _ => "ok") (fun _ => some "material")
        "What do people think of Tesla").synthesis.sources_used =
       (planSteps (classify "What do people think of Tesla")).filter
         (fun s => ((fun _ : String =>
           (some "material" : Option String)) s).isSome) ∧
     (handle_complex_query (fun _ => "ok") (fun _ => none)
        "What do people think of Tesla").synthesis.confidence ≤
       (handle_complex_query (fun _ => "ok") (fun _ => some "material")
        "What do people think of Tesla").synthesis.confidence) :=
  ⟨by simp,
   synthesis_confidence_bounds_mono (fun _ => "ok")
     "What do people think of Tesla" (fun _ => some "material")
     (fun _ => none) (fun _ => some "material") (by simp)⟩

/-- C6: resolution never reads outside the base directory — every path
newly appended to the read log stays inside it; a name outside the
registered closed set (and not cached) fails with `NotFoundError`; and a
registered name whose normalized resolution escapes the base directory
fails with `AccessError`. -/
theorem resource_resolve_confined (reg : ResourceRegistry)
    (fsRead : List String → String) (name : String) (st : RRState) :
    (∀ p ∈ (resolve reg fsRead name st).2.readLog,
        p ∈ st.readLog ∨ segsLead reg.baseDir p = true) ∧
    (assocLookup st.cache name = none →
      assocLookup reg.entries name = none →
      (resolve reg fsRead name st).1 = .error .NotFoundError) ∧
    (∀ rel, assocLookup st.cache name = none →
      assocLookup reg.entries name = some rel →
      segsLead reg.baseDir (normSegs (reg.baseDir ++ rel)) = false →
      (resolve reg fsRead name st).1 = .error .AccessError) := by
  cases hc : assocLookup st.cache name with
  | some c =>
    rw [resolve_eq_cached reg fsRead name st c hc]
    refine ⟨fun p hp => Or.inl hp, ?_, ?_⟩
    · intro h1 _
      cases h1
    · intro rel h1 _ _
      cases h1
  | none =>
    cases he : assocLookup reg.entries name with
    | none =>
      rw [resolve_eq_notfound reg fsRead name st hc he]
      refine ⟨fun p hp => Or.inl hp, fun _ _ => rfl, ?_⟩
      intro rel _ h2 _
      cases h2
    | some rel0 =>
      cases hl : segsLead reg.baseDir (normSegs (reg.baseDir ++ rel0)) with
      | false =>
        rw [resolve_eq_access reg fsRead name st rel0 hc he hl]
        refine ⟨fun p hp => Or.inl hp, ?_, fun _ _ _ _ => rfl⟩
        intro _ h2
        cases h2
      | true =>
        rw [resolve_eq_read reg fsRead name st rel0 hc he hl]
        refine ⟨?_, ?_, ?_⟩
        · intro p hp
          rcases List.mem_append.mp hp with h | h
          · exact Or.inl h
          · cases List.mem_singleton.mp h
            exact Or.inr hl
        · intro _ h2
          cases h2
        · intro rel h1 h2 h3
          cases Option.some.inj h2
          rw [hl] at h3
          cases h3

/-- C6 witness: the hostile `escape` entry of the demo registry resolves
through `..` to a path outside `resources/` and is refused with
`AccessError`. -/
theorem resource_resolve_confined_witness :
    (assocLookup emptyRRState.cache "escape" = none ∧
     assocLookup demoResources.entries "escape" = some ["..", "secret.txt"] ∧
     segsLead demoResources.baseDir
       (normSegs (demoResources.baseDir ++ ["..", "secret.txt"])) = false) ∧
    (resolve demoResources (fun _ => "top secret") "escape"
        emptyRRState).1 = .error .AccessError :=
  ⟨⟨rfl, rfl, rfl⟩,
   (resource_resolve_confined demoResources (fun _ => "top secret") "escape"
      emptyRRState).2.2 ["..", "secret.txt"] rfl rfl rfl⟩

/-- C8: starting from an empty cache, two sequential resolves of the same
name return identical outcomes, and at most one underlying file read is
performed in total — the first successful resolve caches the content and
the second is served from the cache. -/
theorem resource_resolve_idempotent (reg : ResourceRegistry)
    (fsRead : List String → String) (name : String) :
    (resolve reg fsRead name
        (resolve reg fsRead name emptyRRState).2).1 =
      (resolve reg fsRead name emptyRRState).1 ∧
    (resolve reg fsRead name
        (resolve reg fsRead name emptyRRState).2).2.readLog.length ≤ 1 := by
  have hc0 : assocLookup emptyRRState.cache name = none := rfl
  cases he : assocLookup reg.entries name with
  | none =>
    rw [resolve_eq_notfound reg fsRead name emptyRRState hc0 he]
    dsimp only
    rw [resolve_eq_notfound reg fsRead name emptyRRState hc0 he]
    exact ⟨rfl, by decide⟩
  | some rel =>
    cases hl : segsLead reg.baseDir (normSegs (reg.baseDir ++ rel)) with
    | false =>
      rw [resolve_eq_access reg fsRead name emptyRRState rel hc0 he hl]
      dsimp only
      rw [resolve_eq_access reg fsRead name emptyRRState rel hc0 he hl]
      exact ⟨rfl, by decide⟩
    | true =>
      rw [resolve_eq_read reg fsRead name emptyRRState rel hc0 he hl]
      dsimp only
      rw [resolve_eq_cached reg fsRead name
            ⟨(name, fsRead (normSegs (reg.baseDir ++ rel))) ::
               emptyRRState.cache,
             emptyRRState.readLog ++ [normSegs (reg.baseDir ++ rel)]⟩
            (fsRead (normSegs (reg.baseDir ++ rel)))
            (assocLookup_cons_self name _ _)]
      exact ⟨rfl, by simp [emptyRRState]⟩

/-- C7: formatting a registered template is all-or-nothing — if any of its
placeholders is absent from the variables the whole format fails with
`MissingVariableError` carrying an absent placeholder (no partially
substituted string is produced); if every placeholder is supplied it
succeeds with each placeholder substituted by its variable's value; and a
variable not referenced by the template never changes the result. -/
theorem prompt_format_all_or_nothing (preg : List (String × Template))
    (tname : String) (parts : Template) (vars : List (String × String))
    (hget : assocLookup preg tname = some parts) :
    ((∃ v ∈ placeholders parts, assocLookup vars v = none) →
       ∃ p, format preg tname vars = .error (.MissingVariableError p) ∧
         assocLookup vars p = none) ∧
    ((∀ v ∈ placeholders parts, (assocLookup vars v).isSome) →
       format preg tname vars = .ok (substAll parts vars)) ∧
    (∀ w x, w ∉ placeholders parts →
       format preg tname ((w, x) :: vars) = format preg tname vars) := by
  rw [format_eq_found preg tname parts vars hget]
  refine ⟨renderParts_missing parts vars, renderParts_complete parts vars, ?_⟩
  intro w x hw
  rw [format_eq_found preg tname parts ((w, x) :: vars) hget]
  exact renderParts_extra parts vars w x hw

/-- C7 witness: the README's `/prompt` example — `analyze_text` with both
`task` and `text` supplied formats successfully to the fully substituted
string. -/
theorem prompt_format_all_or_nothing_witness :
    (∀ v ∈ placeholders analyzeTextTemplate,
       (assocLookup [("text", "This is a sample text to analyze."),
                     ("task", "sentiment analysis")] v).isSome) ∧
    format demoPrompts "analyze_text"
        [("text", "This is a sample text to analyze."),
         ("task", "sentiment analysis")] =
      .ok (substAll analyzeTextTemplate
        [("text", "This is a sample text to analyze."),
         ("task", "sentiment analysis")]) :=
  ⟨by decide,
   (prompt_format_all_or_nothing demoPrompts "analyze_text"
      analyzeTextTemplate
      [("text", "This is a sample text to analyze."),
       ("task", "sentiment analysis")] rfl).2.1 (by decide)⟩

/-- C9: for every completion backend and input text, the sentiment result
carries a label only from the closed set {positive, negative, neutral,
mixed}, its confidence lies in [0,1], and the `error` field is present
exactly when the completion text failed to parse — `analyze_sentiment` is
a total function, so a parse failure never raises. -/
theorem analyze_sentiment_well_typed (completion : String → String)
    (text : String) :
    (analyze_sentiment completion text).sentiment.all
        (fun lab => sentimentLabels.contains lab) = true ∧
    0 ≤ (analyze_sentiment completion text).confidence ∧
    (analyze_sentiment completion text).confidence ≤ 1 ∧
    (analyze_sentiment completion text).error.isSome =
      (parseSentiment (completion (sentimentPrompt text))).isNone := by
  cases hp : parseSentiment (completion (sentimentPrompt text)) with
  | none =>
    rw [analyze_sentiment_eq_fail completion text hp]
    exact ⟨rfl, le_refl 0, zero_le_one, rfl⟩
  | some pair =>
    obtain ⟨lab, n⟩ := pair
    rcases parseSentiment_sound (completion (sentimentPrompt text)) lab n hp
      with ⟨hlab, hn⟩
    rw [analyze_sentiment_eq_ok completion text lab n hp]
    refine ⟨hlab, ?_, ?_, rfl⟩
    · exact div_nonneg (Nat.cast_nonneg n) (by norm_num)
    · rw [div_le_one (by norm_num : (0 : ℚ) < 100)]
      exact_mod_cast hn

/-- C10: the web UI's `testTool` posts to `/mcp` only when a tool is
selected and the trimmed parameters text is empty or accepted by
`JSON.parse`; with no tool selected it only alerts, and with non-empty
unparsable parameters text it only alerts — malformed parameter text never
reaches the dispatch endpoint. -/
theorem testTool_validates_before_post
    (parse : String → Except String JValue)
    (toolName paramsValue : String) :
    (∀ t ps, testTool parse toolName paramsValue = .postMcp t ps →
       t = toolName ∧ toolName ≠ "" ∧
       (strTrim paramsValue = "" ∧ ps = .obj [] ∨
        parse (strTrim paramsValue) = .ok ps)) ∧
    (toolName = "" →
       testTool parse toolName paramsValue = .alertSelectTool) ∧
    (∀ msg, toolName ≠ "" → strTrim paramsValue ≠ "" →
       parse (strTrim paramsValue) = .error msg →
       testTool parse toolName paramsValue =
         .alertInvalidJson ("Invalid JSON parameters: " ++ msg)) := by
  refine ⟨?_, ?_, ?_⟩
  · intro t ps hpost
    unfold testTool at hpost
    split at hpost
    · cases hpost
    · rename_i hn1
      split at hpost
      · rename_i hy2
        cases hpost
        exact ⟨rfl, fun hc => hn1 (by simp [hc]),
               Or.inl ⟨by simpa using hy2, rfl⟩⟩
      · rename_i hn2
        cases hparse : parse (strTrim paramsValue) with
        | error msg =>
          rw [hparse] at hpost
          cases hpost
        | ok ps2 =>
          rw [hparse] at hpost
          cases hpost
          exact ⟨rfl, fun hc => hn1 (by simp [hc]), Or.inr rfl⟩
  · intro h1
    subst h1
    rfl
  · intro msg hn1 hn2 hparse
    have hb1 : (toolName == "") = false := by
      simp [hn1]
    have hb2 : (strTrim paramsValue == "") = false := by
      simp [hn2]
    unfold testTool
    simp [hb1, hb2, hparse]

/-- C10 witness: with the `llm` tool selected and the unparsable
parameters text `"not json"`, `testTool` alerts and sends nothing. -/
theorem testTool_validates_before_post_witness :
    ("llm" : String) ≠ "" ∧ strTrim "not json" ≠ "" ∧
    testTool (fun _ => .error "Unexpected token") "llm" "not json" =
      .alertInvalidJson ("Invalid JSON parameters: " ++ "Unexpected token") :=
  ⟨by decide, by decide,
   (testTool_validates_before_post (fun _ => .error "Unexpected token")
      "llm" "not json").2.2 "Unexpected token" (by decide) (by decide) rfl⟩

end MCP
